import Mathlib

/-!
Shallow embedding of the Aurora-Swarm client pool, protocol handling,
reverse proxy and tree-reduce pattern, together with theorems checking
the natural-language specification against the code.

Sources embedded: `aurora_swarm/pool.py`, `aurora_swarm/vllm_pool.py`,
`aurora_swarm/hostfile.py`, `aurora_swarm/proxy.py`,
`aurora_swarm/patterns/tree_reduce.py`.
-/

namespace AuroraSwarm

/-- JSON value, as produced by `resp.json()` on a backend body.  Only the
shapes the client code inspects are needed. -/
inductive JVal where
  | jnull
  | jbool (b : Bool)
  | jnum (n : Int)
  | jstr (s : String)
  | jarr (xs : List JVal)
  | jobj (fields : List (String × JVal))

/-- Dictionary access `data[k]` / `data.get(k)` on a JSON object
(`none` when the key is absent or the value is not an object). -/
def JVal.get : JVal → String → Option JVal
  | .jobj fields, k => fields.lookup k
  | _, _ => none

/-- The keys of a JSON object, in order (`list(data.keys())`). -/
def JVal.keys : JVal → List String
  | .jobj fields => fields.map Prod.fst
  | _ => []

/-- Result of a single agent call (`pool.py`, dataclass `Response`). -/
structure Response where
  success : Bool
  text : String
  error : Option String := none
  agent_index : Int := -1
deriving Repr, DecidableEq

/-- Default used with `List.getD` where Python would raise `IndexError`;
claims only ever index in range. -/
def noResponse : Response := ⟨false, "", none, -1⟩

-- ---------------------------------------------------------------------------
-- Endpoints and hostfile (`hostfile.py`)
-- ---------------------------------------------------------------------------

/-- A single agent's network address plus metadata tags
(`hostfile.py`, dataclass `AgentEndpoint`).  The tag dict is modelled as
an association list; hostfile lines repeating a key are outside the model. -/
structure AgentEndpoint where
  host : String
  port : Nat
  tags : List (String × String) := []
deriving Repr, DecidableEq

/-- Property `AgentEndpoint.url`. -/
def AgentEndpoint.url (ep : AgentEndpoint) : String :=
  "http://" ++ ep.host ++ ":" ++ toString ep.port

/-- Value of an ASCII digit string, as computed by Python `int(s)` for a
string of digits. -/
def digitsVal (cs : List Char) : Nat :=
  cs.foldl (fun a c => a * 10 + (c.toNat - 48)) 0

-- Structurally recursive string helpers (the corresponding library
-- functions recurse on byte positions, which blocks kernel evaluation).

/-- Python `s.strip()`. -/
def pyStrip (s : String) : String :=
  ⟨((s.data.dropWhile Char.isWhitespace).reverse.dropWhile Char.isWhitespace).reverse⟩

/-- Whether the (stripped) line starts with `#`. -/
def startsHash (s : String) : Bool :=
  match s.data with
  | c :: _ => c = '#'
  | [] => false

/-- Split a character list at every occurrence of `c`
(Python `s.split(c)` for a one-character separator). -/
def splitOnChar (c : Char) : List Char → List (List Char)
  | [] => [[]]
  | x :: xs =>
    match splitOnChar c xs with
    | [] => if x = c then [[], []] else [[x]]
    | y :: ys => if x = c then [] :: y :: ys else (x :: y) :: ys

/-- Python `s.split("\t")`. -/
def pySplitTab (s : String) : List String :=
  (splitOnChar '\t' s.data).map fun cs => ⟨cs⟩

/-- Python `token.split("=", 1)` when `"=" in token`: the part before the
first `=` and everything after it (`none` when there is no `=`). -/
def splitFirstEq : List Char → Option (List Char × List Char)
  | [] => none
  | x :: xs =>
    if x = '=' then some ([], xs)
    else
      match splitFirstEq xs with
      | some (k, v) => some (x :: k, v)
      | none => none

/-- Replace every (non-overlapping, leftmost) occurrence of `pat` in the
character list, Python `s.replace(pat, repl)` for non-empty `pat`; the
fuel is the input length, which bounds the recursion. -/
def replaceAux (pat repl : List Char) : Nat → List Char → List Char
  | _, [] => []
  | 0, cs => cs
  | fuel + 1, x :: xs =>
    if !pat.isEmpty && pat.isPrefixOf (x :: xs) then
      repl ++ replaceAux pat repl fuel ((x :: xs).drop pat.length)
    else x :: replaceAux pat repl fuel xs

/-- Python `s.replace(pat, repl)` for non-empty `pat`. -/
def pyReplace (s pat repl : String) : String :=
  ⟨replaceAux pat.data repl.data s.data.length s.data⟩

/-- Python `sep.join(xs)`. -/
def joinWith (sep : String) : List String → String
  | [] => ""
  | [x] => x
  | x :: y :: ys => x ++ sep ++ joinWith sep (y :: ys)

/-- Python `s.lower()` on ASCII names. -/
def lowerStr (s : String) : String :=
  ⟨s.data.map Char.toLower⟩

/-- One iteration of the loop body of `parse_hostfile`: parse a single
stripped line into an endpoint, or skip it (blank / comment).  The code
splits on tab characters only. -/
def parseHostLine (line : String) : Option AgentEndpoint :=
  let l := pyStrip line
  if l.data.isEmpty || startsHash l then none
  else
    let parts := pySplitTab l
    let host := parts.headD ""
    let second := (parts.drop 1).headD ""
    let isPort := parts.length > 1 && !second.data.isEmpty && second.data.all Char.isDigit
    let port := if isPort then digitsVal second.data else 8000
    let tagStart := if isPort then 2 else 1
    let tags := (parts.drop tagStart).filterMap fun tok =>
      (splitFirstEq tok.data).map fun kv => (⟨kv.1⟩, ⟨kv.2⟩)
    some ⟨host, port, tags⟩

/-- `parse_hostfile`, over the list of lines of the file. -/
def parse_hostfile (lines : List String) : List AgentEndpoint :=
  lines.filterMap parseHostLine

-- ---------------------------------------------------------------------------
-- Pool descriptor and routing (`pool.py`)
-- ---------------------------------------------------------------------------

/-- The descriptor part of `AgentPool` state: `_endpoints`,
`_global_indices` and `_proxy_url` (already resolved from the parameter
or the environment variable). -/
structure PoolState where
  endpoints : List AgentEndpoint
  globalIndices : List Nat
  proxyUrl : Option String
deriving Repr, DecidableEq

/-- `AgentPool.__init__`: global indices start as `range(len(endpoints))`. -/
def mkAgentPool (eps : List AgentEndpoint) (proxyUrl : Option String) : PoolState :=
  ⟨eps, List.range eps.length, proxyUrl⟩

/-- Python `s.rstrip(\x27/\x27)`. -/
def rstripSlash (s : String) : String :=
  ⟨(s.data.reverse.dropWhile (· = '/')).reverse⟩

/-- `AgentPool._agent_base_url`: direct endpoint URL, or
`{proxy_url}/agent/{global_index}` when a proxy is configured. -/
def agentBaseUrl (p : PoolState) (i : Nat) : String :=
  match p.proxyUrl with
  | none => (p.endpoints.getD i ⟨"", 0, []⟩).url
  | some u => rstripSlash u ++ "/agent/" ++ toString (p.globalIndices.getD i 0)

/-- The URL targeted by `AgentPool.post` for local index `i`. -/
def genPostUrl (p : PoolState) (i : Nat) : String :=
  agentBaseUrl p i ++ "/generate"

/-- The URL targeted by `VLLMPool.post` for local index `i`: the override
builds the URL from `self._endpoints[agent_index].url` directly and never
consults `_proxy_url` or `_global_indices`. -/
def vllmPostUrl (p : PoolState) (i : Nat) : String :=
  (p.endpoints.getD i ⟨"", 0, []⟩).url ++ "/v1/chat/completions"

-- Sub-pool derivation.  The base class's selectors all end in
-- `self._sub_pool(eps, global_indices=idx)`.  `AgentPool._sub_pool`
-- accepts that keyword; `VLLMPool._sub_pool` has signature
-- `(self, endpoints)` only, so on a `VLLMPool` the very same call raises
-- `TypeError: _sub_pool() got an unexpected keyword argument`.

/-- Which `_sub_pool` implementation dynamic dispatch selects. -/
inductive PoolKind where
  | base
  | vllm
deriving Repr, DecidableEq

/-- The call `self._sub_pool(endpoints, global_indices=idx)` as issued by
`by_tag` / `sample` / `select` / `slice`, resolved against the receiver's
class.  On `PoolKind.vllm` the call raises before any pool is built. -/
def subPoolCall (kind : PoolKind) (p : PoolState) (eps : List AgentEndpoint)
    (gidx : List Nat) : Except String PoolState :=
  match kind with
  | .base => .ok ⟨eps, gidx, p.proxyUrl⟩
  | .vllm =>
      .error "TypeError: _sub_pool() got an unexpected keyword argument \x27global_indices\x27"

/-- `AgentPool.by_tag`: keep endpoints whose tag `key` equals `value`,
in source order, carrying their global indices. -/
def byTag (kind : PoolKind) (p : PoolState) (key value : String) :
    Except String PoolState :=
  let kept := (p.endpoints.zip p.globalIndices).filter
    fun e => e.1.tags.lookup key == some value
  subPoolCall kind p (kept.map Prod.fst) (kept.map Prod.snd)

/-- `AgentPool.select`: endpoints at the given local indices, in the
caller's order. -/
def selectPool (kind : PoolKind) (p : PoolState) (indices : List Nat) :
    Except String PoolState :=
  subPoolCall kind p (indices.map fun i => p.endpoints.getD i ⟨"", 0, []⟩)
    (indices.map fun i => p.globalIndices.getD i 0)

/-- `AgentPool.slice`: the contiguous window `[start, stop)` (Python list
slicing clamps out-of-range bounds). -/
def slicePool (kind : PoolKind) (p : PoolState) (start stop : Nat) :
    Except String PoolState :=
  subPoolCall kind p ((p.endpoints.take stop).drop start)
    ((p.globalIndices.take stop).drop start)

/-- `AgentPool.sample` with the random draw made explicit: `chosen` is the
list `random.sample(range(pool_size), min(n, pool_size))` of distinct local
indices; the derived pool is built from it exactly as the code does. -/
def samplePool (kind : PoolKind) (p : PoolState) (chosen : List Nat) :
    Except String PoolState :=
  subPoolCall kind p (chosen.map fun i => p.endpoints.getD i ⟨"", 0, []⟩)
    (chosen.map fun i => p.globalIndices.getD i 0)

-- ---------------------------------------------------------------------------
-- Protocol handling (`AgentPool.post`, `VLLMPool.post`)
-- ---------------------------------------------------------------------------

/-- What the network produced for one request, as seen inside the `try`
block: either an exception (transport error, connection refused, timeout,
or `resp.json()` failing on a malformed body), carrying the exception's
class name and text, or an HTTP status with a JSON-parsed body. -/
inductive HttpOutcome where
  | exn (ty msg : String)
  | ok (status : Nat) (body : JVal)

/-- `data.get("response", data.get("text", ""))` for string-valued fields
(the code places the value in `Response.text`, a string). -/
def extractGenText (body : JVal) : String :=
  match body.get "response" with
  | some (.jstr s) => s
  | _ =>
    match body.get "text" with
    | some (.jstr s) => s
    | _ => ""

/-- Response construction in `AgentPool.post`: any exception becomes a
failure with `error=str(exc)`; any JSON-parsed reply becomes a success —
the HTTP status is never inspected. -/
def agentPoolHandle (idx : Int) (o : HttpOutcome) : Response :=
  match o with
  | .exn _ msg => ⟨false, "", some msg, idx⟩
  | .ok _ body => ⟨true, extractGenText body, none, idx⟩

/-- `data.get("error", \x7b\x7d).get("message", f"HTTP \x7bstatus\x7d")`. -/
def vllmErrorMsg (body : JVal) (status : Nat) : String :=
  match body.get "error" with
  | some e =>
    match e.get "message" with
    | some (.jstr s) => s
    | _ => "HTTP " ++ toString status
  | none => "HTTP " ++ toString status

/-- Python repr of the key list, `f"\x7blist(data.keys())\x7d"`. -/
def pyKeysRepr (ks : List String) : String :=
  "[" ++ joinWith ", " (ks.map fun k => "\x27" ++ k ++ "\x27") ++ "]"

/-- `message.get("content") or message.get("reasoning_content") or ""`:
Python `or` falls through on empty / missing / null values. -/
def vllmExtract (msg : JVal) : String :=
  let c := match msg.get "content" with
    | some (.jstr s) => s
    | _ => ""
  if c ≠ "" then c
  else
    match msg.get "reasoning_content" with
    | some (.jstr s) => s
    | _ => ""

/-- Response construction in `VLLMPool.post`: exceptions become failures
with `error=f"\x7btype\x7d: \x7bstr(exc)\x7d"`; a non-200 status becomes an
API-error failure; a missing or empty `choices` list becomes an
invalid-structure failure; a `choices[0]` without a `message` key raises
`KeyError` inside the `try`, caught into a failure.  Bodies whose
`choices` value is present but not a list also fail (in Python with a
`TypeError` text; the distinction is not load-bearing and is collapsed
into the invalid-structure branch). -/
def vllmHandle (idx : Int) (o : HttpOutcome) : Response :=
  match o with
  | .exn ty msg => ⟨false, "", some (ty ++ ": " ++ msg), idx⟩
  | .ok status body =>
    if status ≠ 200 then
      ⟨false, "", some ("API error: " ++ vllmErrorMsg body status), idx⟩
    else
      match body.get "choices" with
      | some (.jarr (c :: _)) =>
        match c.get "message" with
        | some m => ⟨true, vllmExtract m, none, idx⟩
        | none => ⟨false, "", some "KeyError: \x27message\x27", idx⟩
      | _ =>
        ⟨false, "", some ("Invalid response structure: " ++ pyKeysRepr body.keys), idx⟩

-- ---------------------------------------------------------------------------
-- Dispatch (`AgentPool.send_all`, `AgentPool.broadcast_prompt`)
-- ---------------------------------------------------------------------------

/-- `send_all`: prompt `i` goes to agent `i % N`; the gather preserves
input order.  `handle` is the receiving pool's `post` response handling
(`agentPoolHandle` or `vllmHandle`); `out` gives the network outcome of
request `i`. -/
def sendAll (handle : Int → HttpOutcome → Response) (N : Nat)
    (prompts : List String) (out : Nat → HttpOutcome) : List Response :=
  (List.range prompts.length).map fun i => handle (Int.ofNat (i % N)) (out i)

/-- `broadcast_prompt`: one request per agent, in agent order. -/
def broadcastAll (handle : Int → HttpOutcome → Response) (N : Nat)
    (out : Nat → HttpOutcome) : List Response :=
  (List.range N).map fun i => handle (Int.ofNat i) (out i)

-- ---------------------------------------------------------------------------
-- Dynamic token budget (`VLLMPool.post`, `VLLMPool.post_batch`)
-- ---------------------------------------------------------------------------

/-- `VLLMPool.post` when `max_tokens is None`:
`min(self._max_tokens, max(128, model_max - len(prompt) // 4 - self._buffer))`.
Python `//` on the non-negative length is truncating division. -/
def vllmDynamicTokens (dflt modelMax buffer : Int) (promptLen : Nat) : Int :=
  min dflt (max 128 (modelMax - (promptLen / 4 : Nat) - buffer))

/-- `VLLMPool.post_batch` when `max_tokens is None`: the estimate uses
`sum(len(p) for p in prompts) // len(prompts) // 4` (guarded against an
empty batch by the early return). -/
def vllmDynamicTokensBatch (dflt modelMax buffer : Int) (lens : List Nat) : Int :=
  min dflt (max 128 (modelMax - (lens.sum / lens.length / 4 : Nat) - buffer))

/-- Modelled from the spec words for comparison (refinement check): the
budget with the prompt estimate taken as the ceiling of length over 4. -/
def specChatBudget (dflt modelMax buffer : Int) (promptLen : Nat) : Int :=
  min dflt (max 128 (modelMax - ((promptLen + 3) / 4 : Nat) - buffer))

-- ---------------------------------------------------------------------------
-- Batched dispatch (`VLLMPool.post_batch`, `VLLMPool.send_all_batched`)
-- ---------------------------------------------------------------------------

/-- Outcome of the one batched completions call of `post_batch`: the
`choices[i].text` list of the reply, or an exception. -/
inductive BatchOutcome where
  | ok (texts : List String)
  | exn (ty msg : String)

/-- `VLLMPool.post_batch` response construction: empty input short-circuits;
a reply yields one success per choice (however many the backend sent); an
exception yields one identical failure per prompt. -/
def postBatch (idx : Int) (prompts : List String) (o : BatchOutcome) :
    List Response :=
  if prompts.isEmpty then []
  else
    match o with
    | .ok texts => texts.map fun t => ⟨true, t, none, idx⟩
    | .exn ty msg => prompts.map fun _ => ⟨false, "", some (ty ++ ": " ++ msg), idx⟩

/-- The `groups` dict of `send_all_batched`, in key insertion order: for
`N ≥ 1` agent `a` first appears at prompt `a`, so the keys are
`0, 1, …, min(N, K) − 1`, each with its `(original_index, prompt)` pairs
in ascending original position. -/
def batchGroups (N : Nat) (prompts : List String) :
    List (Nat × List (Nat × String)) :=
  (List.range (min N prompts.length)).map fun a =>
    (a, prompts.enum.filter fun e => e.1 % N == a)

/-- The inner `send_group`: runs `post_batch` on the group's prompts and
pairs `responses[j]` with the original index of `items[j]`.  When the
backend returned fewer choices than prompts, `responses[j]` raises
`IndexError`, which `asyncio.gather` propagates. -/
def sendGroup (idx : Int) (items : List (Nat × String)) (o : BatchOutcome) :
    Except String (List (Nat × Response)) :=
  let responses := postBatch idx (items.map Prod.snd) o
  if responses.length < items.length then
    .error "IndexError: list index out of range"
  else
    .ok ((List.range items.length).map fun j =>
      ((items.getD j (0, "")).1, responses.getD j noResponse))

/-- `VLLMPool.send_all_batched`: fall back to plain `send_all` when batch
mode is off or there are no prompts; otherwise group by target agent, send
one batched request per group, flatten, sort by original index, and strip
the indices.  `Except.error` models an exception escaping the call. -/
def sendAllBatched (N : Nat) (useBatch : Bool) (prompts : List String)
    (bo : Nat → BatchOutcome) (out : Nat → HttpOutcome) :
    Except String (List Response) :=
  if !useBatch || prompts.isEmpty then .ok (sendAll vllmHandle N prompts out)
  else do
    let results ← (batchGroups N prompts).mapM fun g =>
      sendGroup (Int.ofNat g.1) g.2 (bo g.1)
    let sorted := results.flatten.insertionSort fun x y => x.1 ≤ y.1
    return sorted.map Prod.snd

-- ---------------------------------------------------------------------------
-- Transport and limiter lifecycle (`_get_session`, `close`, `_sub_pool`)
-- ---------------------------------------------------------------------------

/-- The world of aiohttp sessions: ids handed out so far and the set of
closed ids. -/
structure SessWorld where
  nextSid : Nat
  closed : List Nat
deriving Repr, DecidableEq

/-- The runtime handles of one pool object: `_session` (`none` until the
lazy first request) and the identity of `_semaphore`. -/
structure PoolRt where
  sid : Option Nat
  semId : Nat
deriving Repr, DecidableEq

/-- `AgentPool.__init__` runtime part: no session yet, a fresh semaphore. -/
def mkPoolRt (semId : Nat) : PoolRt := ⟨none, semId⟩

/-- `AgentPool._get_session`: reuse the held session unless it is absent
or closed, in which case allocate a fresh one and store it. -/
def getSession (p : PoolRt) (w : SessWorld) : Nat × PoolRt × SessWorld :=
  match p.sid with
  | some s =>
    if w.closed.contains s then
      (w.nextSid, { p with sid := some w.nextSid }, { w with nextSid := w.nextSid + 1 })
    else (s, p, w)
  | none =>
    (w.nextSid, { p with sid := some w.nextSid }, { w with nextSid := w.nextSid + 1 })

/-- `AgentPool.close`: close the held session if there is one and it is
not already closed; the attribute itself is left in place. -/
def closePool (p : PoolRt) (w : SessWorld) : SessWorld :=
  match p.sid with
  | some s => if w.closed.contains s then w else { w with closed := s :: w.closed }
  | none => w

/-- `AgentPool._sub_pool` runtime part: `child._session = self._session`
and `child._semaphore = self._semaphore` — the child copies the parent's
current handles. -/
def subPoolRt (p : PoolRt) : PoolRt := ⟨p.sid, p.semId⟩

-- ---------------------------------------------------------------------------
-- Reverse proxy: timeout override and forwarded headers (`proxy.py`)
-- ---------------------------------------------------------------------------

/-- An exact decimal value `num / 10 ^ scale`, the result of parsing a
decimal numeral (kept unnormalised so everything kernel-evaluates). -/
structure DecVal where
  num : Int
  scale : Nat
deriving Repr, DecidableEq

/-- Two decimal values denote the same number. -/
def DecVal.sameVal (a b : DecVal) : Prop :=
  a.num * 10 ^ b.scale = b.num * 10 ^ a.scale

instance (a b : DecVal) : Decidable (a.sameVal b) := by
  unfold DecVal.sameVal
  infer_instance

/-- Python `float(s)` restricted to plain decimal numerals
(`[+-]?digits[.digits]` / `[+-]?.digits`), returned as an exact decimal;
exponent, infinity, nan and surrounding-whitespace forms are outside the
model.  `none` models `ValueError`. -/
def pyFloat (s : String) : Option DecVal :=
  let signed : Int × List Char :=
    match s.data with
    | '-' :: r => (-1, r)
    | '+' :: r => (1, r)
    | r => (1, r)
  let intPart := signed.2.takeWhile Char.isDigit
  match signed.2.dropWhile Char.isDigit with
  | [] =>
    if intPart.isEmpty then none
    else some ⟨signed.1 * digitsVal intPart, 0⟩
  | '.' :: frac =>
    if frac.all Char.isDigit && !(intPart.isEmpty && frac.isEmpty) then
      some ⟨signed.1 * (digitsVal intPart * 10 ^ frac.length + digitsVal frac),
        frac.length⟩
    else none
  | _ => none

/-- Timeout determination in `_proxy_handler`: start from the configured
default; if an `X-Timeout` header is present, `try: float(...)` replaces
it, `except ValueError: pass` keeps the default.  No sign or zero check
is made. -/
def effectiveTimeout (dflt : DecVal) (header : Option String) : DecVal :=
  match header with
  | none => dflt
  | some h =>
    match pyFloat h with
    | some v => v
    | none => dflt

/-- Modelled from the spec words for comparison (refinement check): the
override applies only when the header parses as a positive number. -/
def specEffectiveTimeout (dflt : DecVal) (header : Option String) : DecVal :=
  match header with
  | none => dflt
  | some h =>
    match pyFloat h with
    | some v => if 0 < v.num then v else dflt
    | none => dflt

/-- Hop-by-hop request headers the proxy never forwards. -/
def hopByHop : List String :=
  ["host", "connection", "keep-alive", "proxy-authorization",
   "proxy-connection", "te", "trailer", "transfer-encoding", "upgrade"]

/-- The `forward_headers` loop of `_proxy_handler`: drop hop-by-hop
headers and consume `X-Timeout`, case-insensitively.  The headers are
modelled as the association list the loop iterates over (the Python dict
it builds deduplicates repeated names; no claim depends on that). -/
def forwardHeaders (hs : List (String × String)) : List (String × String) :=
  hs.filter fun h => !hopByHop.contains (lowerStr h.1) && lowerStr h.1 != "x-timeout"

-- ---------------------------------------------------------------------------
-- Tree-reduce (`patterns/tree_reduce.py`)
-- ---------------------------------------------------------------------------

/-- Python `range(0, n, k)` for step `k ≥ 1`. -/
def pyRangeStep (n k : Nat) : List Nat :=
  (List.range ((n + k - 1) / k)).map (· * k)

/-- The chunking loop: `current[i : i + fanin]` for `i in range(0, len, fanin)`. -/
def pyChunks (fanin : Nat) (xs : List String) : List (List String) :=
  (pyRangeStep xs.length fanin).map fun i => (xs.drop i).take fanin

/-- Supervisor prompt construction for one level: join each group with the
separator and substitute the placeholders. -/
def supPrompts (reducePrompt : String) (level : Nat)
    (groups : List (List String)) : List String :=
  groups.map fun g =>
    pyReplace (pyReplace reducePrompt "{responses}" (joinWith "\n---\n" g))
      "{level}" (toString level)

/-- `[r.text for r in rs if r.success]`. -/
def successTexts (rs : List Response) : List String :=
  rs.filterMap fun r => if r.success then some r.text else none

/-- The `while len(current) > 1` loop of `tree_reduce`, totalized with a
round budget: `none` means the loop has not finished within `fuel` rounds
(the loop terminates on an input iff some fuel returns `some`).  The
result carries the final `current` and the final value of `level`. -/
def treeReduceLoop (handle : Int → HttpOutcome → Response) (N fanin : Nat)
    (reducePrompt : String) (out : Nat → Nat → HttpOutcome) :
    Nat → Nat → List String → Option (List String × Nat)
  | fuel, level, current =>
    if current.length ≤ 1 then some (current, level)
    else
      match fuel with
      | 0 => none
      | fuel' + 1 =>
        let prompts := supPrompts reducePrompt level (pyChunks fanin current)
        let newCurrent := successTexts (sendAll handle N prompts (out level))
        treeReduceLoop handle N fanin reducePrompt out fuel' (level + 1) newCurrent

/-- The leaf phase of `tree_reduce`: scatter one prompt per item, or
broadcast the same prompt to all `N` agents. -/
def leafResponsesOf (handle : Int → HttpOutcome → Response) (N : Nat)
    (prompt : String) (items : Option (List String))
    (leafOut : Nat → HttpOutcome) : List Response :=
  match items with
  | some its => sendAll handle N (its.map fun it => pyReplace prompt "{item}" it) leafOut
  | none => broadcastAll handle N leafOut

/-- `tree_reduce`: leaf phase, reduction loop from `level = 1`, then the
final Response (failure when nothing survived, else the single text). -/
def tree_reduce (handle : Int → HttpOutcome → Response) (N fanin fuel : Nat)
    (prompt reducePrompt : String) (items : Option (List String))
    (leafOut : Nat → HttpOutcome) (supOut : Nat → Nat → HttpOutcome) :
    Option Response :=
  let current := successTexts (leafResponsesOf handle N prompt items leafOut)
  match treeReduceLoop handle N fanin reducePrompt supOut fuel 1 current with
  | none => none
  | some (cur, _) =>
    if cur.isEmpty then
      some ⟨false, "", some "All agents failed during reduction", -1⟩
    else some ⟨true, cur.headD "", none, -1⟩

-- ---------------------------------------------------------------------------
-- Helper lemmas
-- ---------------------------------------------------------------------------

theorem agentPoolHandle_agent_index (idx : Int) (o : HttpOutcome) :
    (agentPoolHandle idx o).agent_index = idx := by
  cases o <;> rfl

theorem vllmHandle_agent_index (idx : Int) (o : HttpOutcome) :
    (vllmHandle idx o).agent_index = idx := by
  cases o with
  | exn ty msg => rfl
  | ok status body =>
    unfold vllmHandle
    split
    · rfl
    · split <;> (try split) <;> (try split) <;> rfl

theorem sendAll_length (handle : Int → HttpOutcome → Response) (N : Nat)
    (prompts : List String) (out : Nat → HttpOutcome) :
    (sendAll handle N prompts out).length = prompts.length := by
  simp [sendAll]

theorem sendAll_getD (handle : Int → HttpOutcome → Response) (N : Nat)
    (prompts : List String) (out : Nat → HttpOutcome) (i : Nat)
    (hi : i < prompts.length) :
    (sendAll handle N prompts out).getD i noResponse
      = handle (Int.ofNat (i % N)) (out i) := by
  unfold sendAll
  rw [List.getD_eq_getElem?_getD, List.getElem?_map, List.getElem?_range hi]
  rfl

-- ---------------------------------------------------------------------------
-- Claims
-- ---------------------------------------------------------------------------

/-- Claim C7, failing part (code bug).  The tab-delimited form is parsed as
documented, but the whitespace-delimited colon form that the repository's
own examples document (`hostname1:8000`, `hostname3:8000 node=worker-01`)
is not recognised: the whole line survives as the host (the derived URL
would be `http://hostname1:8000:8000`), instead of host `hostname1` with
port `8000`. -/
theorem c7_colon_hostfile_misparsed :
    parse_hostfile ["# fleet", "", "host1\t8001\tnode=a\trole=critic", "host2\tnode=b"]
      = [⟨"host1", 8001, [("node", "a"), ("role", "critic")]⟩,
         ⟨"host2", 8000, [("node", "b")]⟩] ∧
    parseHostLine "hostname1:8000" = some ⟨"hostname1:8000", 8000, []⟩ ∧
    parseHostLine "hostname1:8000" ≠ some ⟨"hostname1", 8000, []⟩ := by
  refine ⟨rfl, rfl, ?_⟩
  decide

/-- Claim C8, counterexample.  The code estimates prompt tokens with
floor division (`len(prompt) // 4`), not the ceiling the claim states:
for default 512, model max 1000, buffer 512 and a 5-character prompt the
code budget is 487 while the claimed formula gives 486. -/
theorem c8_floor_counterexample :
    vllmDynamicTokens 512 1000 512 5 = 487 ∧
    specChatBudget 512 1000 512 5 = 486 ∧
    vllmDynamicTokens 512 1000 512 5 ≠ specChatBudget 512 1000 512 5 := by
  decide

/-- Claim C8, amended.  With the prompt estimate as the floor of the
character length over 4 (batch: floor of the mean length, itself a floor,
over 4), the budget equals
`min(default, max(128, model_max − estimate − buffer))`; hence it never
exceeds the default, and is at least 128 whenever the default is. -/
theorem c8_token_budget_amended (dflt modelMax buffer : Int) (len : Nat)
    (lens : List Nat) :
    vllmDynamicTokens dflt modelMax buffer len
      = min dflt (max 128 (modelMax - ((len / 4 : Nat) : Int) - buffer)) ∧
    vllmDynamicTokens dflt modelMax buffer len ≤ dflt ∧
    (128 ≤ dflt → 128 ≤ vllmDynamicTokens dflt modelMax buffer len) ∧
    vllmDynamicTokensBatch dflt modelMax buffer lens
      = min dflt (max 128 (modelMax - ((lens.sum / lens.length / 4 : Nat) : Int) - buffer)) ∧
    vllmDynamicTokensBatch dflt modelMax buffer lens ≤ dflt ∧
    (128 ≤ dflt → 128 ≤ vllmDynamicTokensBatch dflt modelMax buffer lens) := by
  refine ⟨rfl, min_le_left _ _, fun h => le_min h (le_max_left _ _),
    rfl, min_le_left _ _, fun h => le_min h (le_max_left _ _)⟩

/-- Witness for `c8_token_budget_amended` at concrete configuration. -/
theorem c8_token_budget_amended_witness :
    (128 : Int) ≤ 512 ∧ 128 ≤ vllmDynamicTokens 512 1000 512 5 ∧
    128 ≤ vllmDynamicTokensBatch 512 1000 512 [5, 7] :=
  ⟨by decide, (c8_token_budget_amended 512 1000 512 5 [5, 7]).2.2.1 (by decide),
    (c8_token_budget_amended 512 1000 512 5 [5, 7]).2.2.2.2.2 (by decide)⟩

/-- Claim C1, counterexample.  On a chat/completions pool with
`proxy_url` set, the outbound URL for local agent 0 is built from the
endpoint directly and does not match the claimed proxy form. -/
theorem c1_chat_pool_ignores_proxy :
    vllmPostUrl ⟨[⟨"host0", 8000, []⟩], [0], some "http://p:9090"⟩ 0
      = "http://host0:8000/v1/chat/completions" ∧
    vllmPostUrl ⟨[⟨"host0", 8000, []⟩], [0], some "http://p:9090"⟩ 0
      ≠ rstripSlash "http://p:9090" ++ "/agent/" ++ toString (0 : Nat)
        ++ "/v1/chat/completions" := by
  refine ⟨rfl, ?_⟩
  decide

/-- Claim C1, amended.  When `proxy_url` is set, every URL the base pool's
send path computes equals the stripped proxy URL followed by `/agent/`,
the agent's global index (never its local index) and the adapter path;
the chat/completions pool's send path ignores the proxy entirely and
always targets the endpoint's direct URL. -/
theorem c1_proxy_routing_amended (p : PoolState) (u : String) (i : Nat)
    (hu : p.proxyUrl = some u) :
    agentBaseUrl p i = rstripSlash u ++ "/agent/" ++ toString (p.globalIndices.getD i 0) ∧
    genPostUrl p i = rstripSlash u ++ "/agent/"
      ++ toString (p.globalIndices.getD i 0) ++ "/generate" ∧
    vllmPostUrl p i = (p.endpoints.getD i ⟨"", 0, []⟩).url ++ "/v1/chat/completions" := by
  have h : agentBaseUrl p i
      = rstripSlash u ++ "/agent/" ++ toString (p.globalIndices.getD i 0) := by
    unfold agentBaseUrl
    rw [hu]
  exact ⟨h, by unfold genPostUrl; rw [h], rfl⟩

/-- Witness for `c1_proxy_routing_amended` on a one-agent sub-pool whose
single agent has global index 7 and a proxy URL with a trailing slash. -/
theorem c1_proxy_routing_amended_witness :
    agentBaseUrl ⟨[⟨"h", 80, []⟩], [7], some "http://p:9090/"⟩ 0
      = rstripSlash "http://p:9090/" ++ "/agent/"
        ++ toString (([7] : List Nat).getD 0 0) ∧
    genPostUrl ⟨[⟨"h", 80, []⟩], [7], some "http://p:9090/"⟩ 0
      = rstripSlash "http://p:9090/" ++ "/agent/"
        ++ toString (([7] : List Nat).getD 0 0) ++ "/generate" ∧
    vllmPostUrl ⟨[⟨"h", 80, []⟩], [7], some "http://p:9090/"⟩ 0
      = (([⟨"h", 80, []⟩] : List AgentEndpoint).getD 0 ⟨"", 0, []⟩).url
        ++ "/v1/chat/completions" :=
  c1_proxy_routing_amended ⟨[⟨"h", 80, []⟩], [7], some "http://p:9090/"⟩
    "http://p:9090/" 0 rfl

/-- Claim C3 (code bug).  Every selector of the base class ends in
`self._sub_pool(eps, global_indices=...)`; `VLLMPool._sub_pool` does not
accept that keyword, so deriving any sub-pool from a chat/completions
pool raises `TypeError` — the repository's own test
`test_vllm_pool_subpool_inherits_config` calls `pool.select([0, 1])` on a
`VLLMPool` and would fail.  On the base pool the same derivation succeeds
and preserves the global-index mapping. -/
theorem c3_vllm_subpool_raises :
    selectPool .vllm
      (mkAgentPool [⟨"host1", 8000, []⟩, ⟨"host2", 8000, []⟩, ⟨"host3", 8000, []⟩] none)
      [0, 1]
      = .error "TypeError: _sub_pool() got an unexpected keyword argument \x27global_indices\x27" ∧
    slicePool .vllm
      (mkAgentPool [⟨"host1", 8000, []⟩, ⟨"host2", 8000, []⟩] none) 0 1
      = .error "TypeError: _sub_pool() got an unexpected keyword argument \x27global_indices\x27" ∧
    selectPool .base
      (mkAgentPool [⟨"host1", 8000, []⟩, ⟨"host2", 8000, []⟩, ⟨"host3", 8000, []⟩]
        (some "http://p:9090"))
      [2, 0]
      = .ok ⟨[⟨"host3", 8000, []⟩, ⟨"host1", 8000, []⟩], [2, 0], some "http://p:9090"⟩ :=
  ⟨rfl, rfl, rfl⟩

/-- Claim C6 (code bug).  Batched dispatch partitions by `i mod N`
preserving positions, reassembles in input order, and gives every prompt
of a failed batch the same error — but when a backend returns fewer
choices than prompts, `post_batch` returns fewer responses than its
docstring promises and the reassembly raises `IndexError`, which
propagates out of `send_all_batched`. -/
theorem c6_batch_short_choices_raises :
    postBatch 0 ["a", "b"] (.ok ["only"]) = [⟨true, "only", none, 0⟩] ∧
    sendAllBatched 1 true ["a", "b"] (fun _ => .ok ["only"]) (fun _ => .exn "E" "m")
      = .error "IndexError: list index out of range" ∧
    sendAllBatched 2 true ["a", "b", "c"]
      (fun a => .ok (if a == 0 then ["r0", "r2"] else ["r1"])) (fun _ => .exn "E" "m")
      = .ok [⟨true, "r0", none, 0⟩, ⟨true, "r1", none, 1⟩, ⟨true, "r2", none, 0⟩] ∧
    sendAllBatched 2 true ["a", "b", "c"]
      (fun _ => .exn "APIConnectionError" "boom") (fun _ => .exn "E" "m")
      = .ok [⟨false, "", some "APIConnectionError: boom", 0⟩,
             ⟨false, "", some "APIConnectionError: boom", 1⟩,
             ⟨false, "", some "APIConnectionError: boom", 0⟩] :=
  ⟨rfl, rfl, rfl, rfl⟩

/-- Claim C9, counterexample.  The handler applies any value `float()`
accepts, with no positivity check: the header `X-Timeout: -5` overrides
the default of 300 seconds with −5, where the claim says the default must
stay in force (as the spec-worded variant does). -/
theorem c9_nonpositive_timeout_counterexample :
    pyFloat "-5" = some ⟨-5, 0⟩ ∧
    effectiveTimeout ⟨300, 0⟩ (some "-5") = ⟨-5, 0⟩ ∧
    ¬ DecVal.sameVal (effectiveTimeout ⟨300, 0⟩ (some "-5")) ⟨300, 0⟩ ∧
    specEffectiveTimeout ⟨300, 0⟩ (some "-5") = ⟨300, 0⟩ := by
  decide

/-- Claim C9, amended.  The effective upstream timeout is the configured
default unless the request carries an `X-Timeout` header parseable as a
number, in which case that value is used — zero and negative values
included; an unparseable header leaves the default in force, and the
`X-Timeout` header is always consumed, never forwarded downstream. -/
theorem c9_timeout_amended (dflt : DecVal) (h : String) (v : DecVal)
    (hs : List (String × String)) :
    effectiveTimeout dflt none = dflt ∧
    (pyFloat h = none → effectiveTimeout dflt (some h) = dflt) ∧
    (pyFloat h = some v → effectiveTimeout dflt (some h) = v) ∧
    ∀ e ∈ forwardHeaders hs, lowerStr e.1 ≠ "x-timeout" := by
  refine ⟨rfl, fun hp => ?_, fun hp => ?_, fun e he => ?_⟩
  · simp only [effectiveTimeout]
    rw [hp]
  · simp only [effectiveTimeout]
    rw [hp]
  · have hm := List.of_mem_filter he
    simp only [Bool.and_eq_true, bne_iff_ne, ne_eq] at hm
    exact hm.2

/-- Witness for `c9_timeout_amended`: the header `X-Timeout: 9.5` yields
9.5 seconds and is stripped from the forwarded headers. -/
theorem c9_timeout_amended_witness :
    pyFloat "9.5" = some ⟨95, 1⟩ ∧
    effectiveTimeout ⟨300, 0⟩ (some "9.5") = ⟨95, 1⟩ ∧
    ∀ e ∈ forwardHeaders [("X-Timeout", "9.5"), ("Accept", "a")],
      lowerStr e.1 ≠ "x-timeout" :=
  ⟨by decide,
    (c9_timeout_amended ⟨300, 0⟩ "9.5" ⟨95, 1⟩ []).2.2.1 (by decide),
    (c9_timeout_amended ⟨300, 0⟩ "9.5" ⟨95, 1⟩
      [("X-Timeout", "9.5"), ("Accept", "a")]).2.2.2⟩

/-- Claim C4, counterexample.  The simple-generate pool never inspects the
HTTP status: a 500 reply whose body parses as JSON comes back as a
success Response with empty text and no error, where the claim says a
non-2xx status yields a failure, never a success. -/
theorem c4_non2xx_success_counterexample :
    agentPoolHandle 0 (.ok 500 (.jobj [("error", .jstr "boom")]))
      = ⟨true, "", none, 0⟩ := rfl

/-- Claim C4, amended.  `send` never raises: every exception inside the
request (transport error, connection refusal, timeout, malformed JSON) is
converted to a failure Response with empty text, the exception's text as
error and `agent_index` equal to the local index — and on the
chat/completions pool a non-2xx status or a missing `choices` field also
becomes such a failure; the simple-generate pool, however, returns a
success Response for any JSON-parseable body regardless of HTTP status. -/
theorem c4_error_conversion_amended (idx : Int) (ty msg : String) (status : Nat)
    (body : JVal) (o : HttpOutcome) :
    agentPoolHandle idx (.exn ty msg) = ⟨false, "", some msg, idx⟩ ∧
    vllmHandle idx (.exn ty msg) = ⟨false, "", some (ty ++ ": " ++ msg), idx⟩ ∧
    (status ≠ 200 →
      vllmHandle idx (.ok status body)
        = ⟨false, "", some ("API error: " ++ vllmErrorMsg body status), idx⟩) ∧
    (body.get "choices" = none →
      vllmHandle idx (.ok 200 body)
        = ⟨false, "", some ("Invalid response structure: " ++ pyKeysRepr body.keys), idx⟩) ∧
    (agentPoolHandle idx o).agent_index = idx ∧
    (vllmHandle idx o).agent_index = idx := by
  refine ⟨rfl, rfl, fun hs => ?_, fun hc => ?_,
    agentPoolHandle_agent_index idx o, vllmHandle_agent_index idx o⟩
  · simp only [vllmHandle]
    rw [if_pos hs]
  · simp only [vllmHandle]
    rw [if_neg (by simp), hc]

/-- Witness for `c4_error_conversion_amended` on concrete failures. -/
theorem c4_error_conversion_amended_witness :
    agentPoolHandle 3 (.exn "TimeoutError" "t") = ⟨false, "", some "t", 3⟩ ∧
    vllmHandle 3 (.exn "TimeoutError" "t") = ⟨false, "", some "TimeoutError: t", 3⟩ ∧
    vllmHandle 1 (.ok 503 (.jobj [("error", .jobj [("message", .jstr "overloaded")])]))
      = ⟨false, "", some ("API error: "
          ++ vllmErrorMsg (.jobj [("error", .jobj [("message", .jstr "overloaded")])]) 503), 1⟩ ∧
    vllmHandle 1 (.ok 200 (.jobj [("id", .jstr "x")]))
      = ⟨false, "", some ("Invalid response structure: "
          ++ pyKeysRepr (JVal.jobj [("id", .jstr "x")]).keys), 1⟩ :=
  ⟨(c4_error_conversion_amended 3 "TimeoutError" "t" 0 .jnull (.exn "" "")).1,
    (c4_error_conversion_amended 3 "TimeoutError" "t" 0 .jnull (.exn "" "")).2.1,
    (c4_error_conversion_amended 1 "" "" 503
      (.jobj [("error", .jobj [("message", .jstr "overloaded")])]) (.exn "" "")).2.2.1
      (by decide),
    (c4_error_conversion_amended 1 "" "" 0 (.jobj [("id", .jstr "x")])
      (.exn "" "")).2.2.2.1 rfl⟩

/-- Claim C2, counterexample.  A sub-pool derived before the parent's
first request copies `_session = None` and then lazily creates its own
session, which the parent does not share: here the sub-pool obtains
session 0 while the parent's own next request obtains the distinct
session 1 — a private transport, contradicting the claim. -/
theorem c2_private_transport_counterexample :
    (getSession (subPoolRt (mkPoolRt 0)) ⟨0, []⟩).1 = 0 ∧
    (getSession (mkPoolRt 0) (getSession (subPoolRt (mkPoolRt 0)) ⟨0, []⟩).2.2).1 = 1 ∧
    (getSession (subPoolRt (mkPoolRt 0)) ⟨0, []⟩).1
      ≠ (getSession (mkPoolRt 0) (getSession (subPoolRt (mkPoolRt 0)) ⟨0, []⟩).2.2).1 := by
  decide

/-- Claim C2, amended.  A sub-pool always shares the parent's limiter by
reference, and shares the parent's transport handle as it exists at
derivation time — when the parent already holds a session, the sub-pool
holds the same one (so derivation after the parent's first request never
creates a private transport; derivation before it can).  `close()` is
idempotent for every pool, and after a sub-pool closes the shared session
the parent's next request transparently allocates a fresh session rather
than failing. -/
theorem c2_shared_handles_amended (p : PoolRt) (w : SessWorld) (s : Nat) :
    (subPoolRt p).semId = p.semId ∧
    (p.sid = some s → (subPoolRt p).sid = some s) ∧
    closePool p (closePool p w) = closePool p w ∧
    (p.sid = some s → s ∉ w.closed → w.nextSid ≠ s →
      (getSession p (closePool (subPoolRt p) w)).1 = w.nextSid ∧
      (getSession p (closePool (subPoolRt p) w)).1 ≠ s) := by
  refine ⟨rfl, fun h => h, ?_, fun h hc hn => ?_⟩
  · rcases hp : p.sid with _ | t
    · simp [closePool, hp]
    · by_cases hc : t ∈ w.closed
      · simp [closePool, hp, hc]
      · simp [closePool, hp, hc]
  · have hw : closePool (subPoolRt p) w = ⟨w.nextSid, s :: w.closed⟩ := by
      simp [closePool, subPoolRt, h, hc]
    rw [hw]
    constructor
    · simp [getSession, h]
    · simp only [getSession, h]
      simp
      exact hn

/-- Witness for `c2_shared_handles_amended`: parent holding open session 5,
world about to allocate id 6. -/
theorem c2_shared_handles_amended_witness :
    (subPoolRt ⟨some 5, 2⟩).semId = (⟨some 5, 2⟩ : PoolRt).semId ∧
    (subPoolRt ⟨some 5, 2⟩).sid = some 5 ∧
    closePool ⟨some 5, 2⟩ (closePool ⟨some 5, 2⟩ ⟨6, []⟩)
      = closePool ⟨some 5, 2⟩ ⟨6, []⟩ ∧
    (getSession ⟨some 5, 2⟩ (closePool (subPoolRt ⟨some 5, 2⟩) ⟨6, []⟩)).1 = 6 ∧
    (getSession ⟨some 5, 2⟩ (closePool (subPoolRt ⟨some 5, 2⟩) ⟨6, []⟩)).1 ≠ 5 :=
  ⟨(c2_shared_handles_amended ⟨some 5, 2⟩ ⟨6, []⟩ 5).1,
    (c2_shared_handles_amended ⟨some 5, 2⟩ ⟨6, []⟩ 5).2.1 rfl,
    (c2_shared_handles_amended ⟨some 5, 2⟩ ⟨6, []⟩ 5).2.2.1,
    ((c2_shared_handles_amended ⟨some 5, 2⟩ ⟨6, []⟩ 5).2.2.2 rfl
      (by decide) (by decide)).1,
    ((c2_shared_handles_amended ⟨some 5, 2⟩ ⟨6, []⟩ 5).2.2.2 rfl
      (by decide) (by decide)).2⟩

/-- Claim C5 (confirmed).  For a pool of size `N ≥ 1` and `K` prompts —
`K = 0` and `K > N` included — `send_all` returns exactly `K` responses in
input order, and response `i` carries `agent_index = i mod N`; this holds
for the simple-generate and the chat/completions protocol alike. -/
theorem c5_send_all_order (N : Nat) (prompts : List String)
    (out : Nat → HttpOutcome) (i : Nat) (hN : 0 < N) (hi : i < prompts.length) :
    (sendAll agentPoolHandle N prompts out).length = prompts.length ∧
    (sendAll vllmHandle N prompts out).length = prompts.length ∧
    ((sendAll agentPoolHandle N prompts out).getD i noResponse).agent_index
      = Int.ofNat (i % N) ∧
    ((sendAll vllmHandle N prompts out).getD i noResponse).agent_index
      = Int.ofNat (i % N) ∧
    i % N < N := by
  refine ⟨sendAll_length _ _ _ _, sendAll_length _ _ _ _, ?_, ?_,
    Nat.mod_lt _ hN⟩
  · rw [sendAll_getD _ _ _ _ _ hi, agentPoolHandle_agent_index]
  · rw [sendAll_getD _ _ _ _ _ hi, vllmHandle_agent_index]

/-- Witness for `c5_send_all_order`: five prompts on a pool of two agents;
the fifth response goes to agent `4 mod 2 = 0`. -/
theorem c5_send_all_order_witness :
    (sendAll agentPoolHandle 2 ["a", "b", "c", "d", "e"]
      (fun _ => .exn "E" "m")).length = 5 ∧
    (sendAll vllmHandle 2 ["a", "b", "c", "d", "e"]
      (fun _ => .exn "E" "m")).length = 5 ∧
    ((sendAll agentPoolHandle 2 ["a", "b", "c", "d", "e"]
      (fun _ => .exn "E" "m")).getD 4 noResponse).agent_index = Int.ofNat (4 % 2) ∧
    ((sendAll vllmHandle 2 ["a", "b", "c", "d", "e"]
      (fun _ => .exn "E" "m")).getD 4 noResponse).agent_index = Int.ofNat (4 % 2) ∧
    4 % 2 < 2 :=
  c5_send_all_order 2 ["a", "b", "c", "d", "e"] (fun _ => .exn "E" "m") 4
    (by decide) (by decide)

-- Tree-reduce helper lemmas.

theorem successTexts_length_le (rs : List Response) :
    (successTexts rs).length ≤ rs.length :=
  List.length_filterMap_le _ _

theorem supPrompts_length (rp : String) (lvl : Nat) (gs : List (List String)) :
    (supPrompts rp lvl gs).length = gs.length := by
  simp [supPrompts]

theorem pyChunks_length (fanin : Nat) (xs : List String) :
    (pyChunks fanin xs).length = (xs.length + fanin - 1) / fanin := by
  simp [pyChunks, pyRangeStep]

theorem ceilDiv_lt_self (n f : Nat) (hn : 2 ≤ n) (hf : 2 ≤ f) :
    (n + f - 1) / f < n := by
  have h1 : n + f ≤ n * f := Nat.add_le_mul hn hf
  exact (Nat.div_lt_iff_lt_mul (by omega)).mpr (by omega)

theorem pyChunks_single (fanin : Nat) (xs : List String)
    (h1 : 1 ≤ xs.length) (h2 : xs.length ≤ fanin) :
    pyChunks fanin xs = [xs] := by
  have hq : (xs.length + fanin - 1) / fanin = 1 :=
    Nat.div_eq_of_lt_le (by omega) (by omega)
  unfold pyChunks pyRangeStep
  rw [hq]
  simp [List.range_succ, List.take_of_length_le h2]

theorem treeReduceLoop_small (handle : Int → HttpOutcome → Response)
    (N fanin : Nat) (rp : String) (out : Nat → Nat → HttpOutcome)
    (fuel level : Nat) (current : List String) (h : current.length ≤ 1) :
    treeReduceLoop handle N fanin rp out fuel level current
      = some (current, level) := by
  unfold treeReduceLoop
  rw [if_pos h]

theorem treeReduceLoop_stuck (handle : Int → HttpOutcome → Response)
    (N fanin : Nat) (rp : String) (out : Nat → Nat → HttpOutcome)
    (level : Nat) (current : List String) (h : ¬ current.length ≤ 1) :
    treeReduceLoop handle N fanin rp out 0 level current = none := by
  unfold treeReduceLoop
  rw [if_neg h]

theorem treeReduceLoop_step (handle : Int → HttpOutcome → Response)
    (N fanin : Nat) (rp : String) (out : Nat → Nat → HttpOutcome)
    (fuel level : Nat) (current : List String) (h : ¬ current.length ≤ 1) :
    treeReduceLoop handle N fanin rp out (fuel + 1) level current
      = treeReduceLoop handle N fanin rp out fuel (level + 1)
          (successTexts (sendAll handle N
            (supPrompts rp level (pyChunks fanin current)) (out level))) := by
  conv_lhs => unfold treeReduceLoop
  rw [if_neg h]

theorem treeReduceLoop_terminates (handle : Int → HttpOutcome → Response)
    (N fanin : Nat) (rp : String) (out : Nat → Nat → HttpOutcome)
    (hf : 2 ≤ fanin) :
    ∀ fuel level (current : List String), current.length ≤ fuel →
      treeReduceLoop handle N fanin rp out fuel level current ≠ none := by
  intro fuel
  induction fuel with
  | zero =>
    intro level current hle
    rw [treeReduceLoop_small _ _ _ _ _ _ _ _ (by omega)]
    simp
  | succ f ih =>
    intro level current hle
    by_cases h : current.length ≤ 1
    · rw [treeReduceLoop_small _ _ _ _ _ _ _ _ h]
      simp
    · rw [treeReduceLoop_step _ _ _ _ _ _ _ _ h]
      apply ih
      have hsucc := successTexts_length_le (sendAll handle N
        (supPrompts rp level (pyChunks fanin current)) (out level))
      rw [sendAll_length, supPrompts_length, pyChunks_length] at hsucc
      have hlt := ceilDiv_lt_self current.length fanin (by omega) hf
      omega

theorem successTexts_length_of_all (rs : List Response)
    (h : ∀ r ∈ rs, r.success = true) :
    (successTexts rs).length = rs.length := by
  induction rs with
  | nil => rfl
  | cons x xs ih =>
    have hx := h x (List.mem_cons_self _ _)
    rw [successTexts, List.filterMap_cons] at *
    simp only [hx, if_pos]
    simpa using ih fun r hr => h r (List.mem_cons_of_mem _ hr)

theorem successTexts_sendAll_all_ok (N : Nat) (prompts : List String) :
    (successTexts (sendAll agentPoolHandle N prompts
      (fun _ => .ok 200 (.jobj [])))).length = prompts.length := by
  rw [successTexts_length_of_all, sendAll_length]
  intro r hr
  simp only [sendAll, List.mem_map] at hr
  obtain ⟨i, _, rfl⟩ := hr
  rfl

theorem treeReduceLoop_fanin_one (N : Nat) (rp : String) :
    ∀ fuel level (current : List String), 2 ≤ current.length →
      treeReduceLoop agentPoolHandle N 1 rp (fun _ _ => .ok 200 (.jobj []))
        fuel level current = none := by
  intro fuel
  induction fuel with
  | zero =>
    intro level current h
    exact treeReduceLoop_stuck _ _ _ _ _ _ _ (by omega)
  | succ f ih =>
    intro level current h
    rw [treeReduceLoop_step _ _ _ _ _ _ _ _ (by omega)]
    apply ih
    rw [successTexts_sendAll_all_ok, supPrompts_length, pyChunks_length]
    omega

/-- Claim C10 (confirmed).  `tree_reduce` returns the single failure
Response whenever the loop's surviving-success list is empty — in
particular when the leaf phase yields zero successes; with `2 ≤ L ≤ fanin`
surviving leaves, exactly one reduction round runs, with the level
counter going from 1 to 2; with `fanin ≥ 2` every round produces strictly
fewer groups than inputs and the loop terminates within `|current|`
rounds; with `fanin = 1` and at least two surviving responses whose
supervisor requests all succeed, no round budget suffices — the loop
does not terminate. -/
theorem c10_tree_reduce :
    (∀ (handle : Int → HttpOutcome → Response) (N fanin fuel : Nat)
        (prompt rp : String) (items : Option (List String))
        (lo : Nat → HttpOutcome) (so : Nat → Nat → HttpOutcome) (l : Nat),
      treeReduceLoop handle N fanin rp so fuel 1
          (successTexts (leafResponsesOf handle N prompt items lo)) = some ([], l) →
      tree_reduce handle N fanin fuel prompt rp items lo so
        = some ⟨false, "", some "All agents failed during reduction", -1⟩) ∧
    (∀ (handle : Int → HttpOutcome → Response) (N fanin fuel : Nat)
        (prompt rp : String) (items : Option (List String))
        (lo : Nat → HttpOutcome) (so : Nat → Nat → HttpOutcome),
      successTexts (leafResponsesOf handle N prompt items lo) = [] →
      tree_reduce handle N fanin fuel prompt rp items lo so
        = some ⟨false, "", some "All agents failed during reduction", -1⟩) ∧
    (∀ (handle : Int → HttpOutcome → Response) (N fanin fuel : Nat)
        (rp : String) (so : Nat → Nat → HttpOutcome) (current : List String),
      2 ≤ current.length → current.length ≤ fanin →
      treeReduceLoop handle N fanin rp so (fuel + 1) 1 current
        = some (successTexts (sendAll handle N
            (supPrompts rp 1 [current]) (so 1)), 2)) ∧
    (∀ (fanin : Nat) (current : List String), 2 ≤ fanin → 2 ≤ current.length →
      (pyChunks fanin current).length < current.length) ∧
    (∀ (handle : Int → HttpOutcome → Response) (N fanin : Nat) (rp : String)
        (so : Nat → Nat → HttpOutcome) (fuel level : Nat) (current : List String),
      2 ≤ fanin → current.length ≤ fuel →
      treeReduceLoop handle N fanin rp so fuel level current ≠ none) ∧
    (∀ (N : Nat) (rp : String) (fuel level : Nat) (current : List String),
      2 ≤ current.length →
      treeReduceLoop agentPoolHandle N 1 rp (fun _ _ => .ok 200 (.jobj []))
        fuel level current = none) := by
  have hempty : ∀ (handle : Int → HttpOutcome → Response) (N fanin fuel : Nat)
      (prompt rp : String) (items : Option (List String))
      (lo : Nat → HttpOutcome) (so : Nat → Nat → HttpOutcome) (l : Nat),
      treeReduceLoop handle N fanin rp so fuel 1
          (successTexts (leafResponsesOf handle N prompt items lo)) = some ([], l) →
      tree_reduce handle N fanin fuel prompt rp items lo so
        = some ⟨false, "", some "All agents failed during reduction", -1⟩ := by
    intro handle N fanin fuel prompt rp items lo so l hl
    simp only [tree_reduce]
    rw [hl]
    rfl
  refine ⟨hempty, ?_, ?_, ?_, ?_, treeReduceLoop_fanin_one⟩
  · intro handle N fanin fuel prompt rp items lo so h
    apply hempty (l := 1)
    rw [h]
    exact treeReduceLoop_small _ _ _ _ _ _ _ _ (by simp)
  · intro handle N fanin fuel rp so current h2 hf
    rw [treeReduceLoop_step _ _ _ _ _ _ _ _ (by omega),
      pyChunks_single fanin current (by omega) hf]
    apply treeReduceLoop_small
    have hle := successTexts_length_le (sendAll handle N
      (supPrompts rp 1 [current]) (so 1))
    rw [sendAll_length, supPrompts_length] at hle
    simpa using hle
  · intro fanin current hf h2
    rw [pyChunks_length]
    exact ceilDiv_lt_self _ _ h2 hf
  · intro handle N fanin rp so fuel level current hf hle
    exact treeReduceLoop_terminates handle N fanin rp so hf fuel level current hle

/-- Witness for `c10_tree_reduce`, each part at a concrete instance. -/
theorem c10_tree_reduce_witness :
    tree_reduce agentPoolHandle 2 50 3 "p" "r" (some [])
        (fun _ => .exn "E" "m") (fun _ _ => .exn "E" "m")
      = some ⟨false, "", some "All agents failed during reduction", -1⟩ ∧
    tree_reduce agentPoolHandle 0 50 3 "p" "r" none
        (fun _ => .exn "E" "m") (fun _ _ => .exn "E" "m")
      = some ⟨false, "", some "All agents failed during reduction", -1⟩ ∧
    treeReduceLoop agentPoolHandle 2 2 "r" (fun _ _ => .exn "E" "m") 1 1 ["a", "b"]
      = some (successTexts (sendAll agentPoolHandle 2
          (supPrompts "r" 1 [["a", "b"]]) ((fun _ _ => .exn "E" "m") 1)), 2) ∧
    (pyChunks 2 ["a", "b", "c"]).length < 3 ∧
    treeReduceLoop agentPoolHandle 1 2 "r" (fun _ _ => .exn "E" "m") 3 1 ["a", "b", "c"]
      ≠ none ∧
    treeReduceLoop agentPoolHandle 1 1 "r" (fun _ _ => .ok 200 (.jobj [])) 4 1 ["x", "y"]
      = none :=
  ⟨c10_tree_reduce.1 agentPoolHandle 2 50 3 "p" "r" (some [])
      (fun _ => .exn "E" "m") (fun _ _ => .exn "E" "m") 1 (by rfl),
    c10_tree_reduce.2.1 agentPoolHandle 0 50 3 "p" "r" none
      (fun _ => .exn "E" "m") (fun _ _ => .exn "E" "m") (by rfl),
    c10_tree_reduce.2.2.1 agentPoolHandle 2 2 0 "r" (fun _ _ => .exn "E" "m")
      ["a", "b"] (by decide) (by decide),
    c10_tree_reduce.2.2.2.1 2 ["a", "b", "c"] (by decide) (by decide),
    c10_tree_reduce.2.2.2.2.1 agentPoolHandle 1 2 "r" (fun _ _ => .exn "E" "m")
      3 1 ["a", "b", "c"] (by decide) (by decide),
    c10_tree_reduce.2.2.2.2.2 1 "r" 4 1 ["x", "y"] (by decide)⟩

end AuroraSwarm
